import Mathlib

/-!
Shallow embedding of the document-image verification client.

The repository has two page-controller variants (the unnamed source files
`part_000` and `part_001`), a crop helper (`getCroppedImg`, with the
helpers `getRadianAngle` and `rotateSize`), and an optimizer
(`optimizeImage`, in `part_002`).  The page state consists of the React
`useState` cells `error`, `uploading`, `preview`, `selectedFile`,
`croppedAreaPixels` and `result`; the purely presentational `isDragOver`
hover flag is not modelled.  Asynchronous host operations (canvas
extraction, re-encoding, the HTTP POST) are passed in as explicit outcome
oracles, and each run of `handleUpload` additionally records the ordered
trace of pipeline operations it started and the multipart request it
issued, so that ordering and request-shape properties can be stated.
-/

/-- JS string fallback `s || fallback`: the empty string is falsy. -/
def jsOr (s fallback : String) : String :=
  if s = "" then fallback else s

/-- JS optional-chain fallback `m?.field || fallback`: a missing field and an
empty string both yield the fallback. -/
def jsOrOpt (m : Option String) (fallback : String) : String :=
  match m with
  | some v => jsOr v fallback
  | none => fallback

/-- The generic failure message used by both controller variants. -/
def uploadFailedMsg : String := "Upload failed. Please try again."

/-- Models JS `s.startsWith(p)`: `p`'s characters open `s`. -/
def strStartsWith (s p : String) : Bool :=
  p.data.isPrefixOf s.data

/-- Models JS `s.split(".")[0]`: the characters of `s` before its first
dot (the whole of `s` when it has no dot). -/
def headBeforeDot (s : String) : String :=
  ⟨s.data.takeWhile (fun c => c != '.')⟩

/-- A selected file: its `name` and declared MIME `type` (the only `File`
fields the controllers read). -/
structure FileRec where
  name : String
  type : String
deriving DecidableEq

/-- The `croppedAreaPixels` rectangle reported by the crop widget, in source
pixel coordinates. -/
structure CropPixels where
  x : ℚ
  y : ℚ
  width : ℚ
  height : ℚ
deriving DecidableEq

/-- `ocr_result` of the verification response. -/
structure OCRResult where
  full_text : String
  status : String
deriving DecidableEq

/-- `result` of the verification response (`AuthenticityResult` in both
controller variants). -/
structure AuthenticityResult where
  is_authentic : Bool
  confidence : ℚ
  authenticity_confidence : ℚ
  status : String
  document_type : String
  reasoning : String
  anomaly_score : ℚ
  ocr_result : OCRResult
deriving DecidableEq

/-- The response payload (`VerifyAuthenticityResponse` in both variants). -/
structure VerifyAuthenticityResponse where
  result : AuthenticityResult
  error : String
deriving DecidableEq

/-- The page-level React state shared by both controller variants. -/
structure PageState where
  error : Option String
  uploading : Bool
  preview : Option String
  selectedFile : Option FileRec
  croppedAreaPixels : Option CropPixels
  result : Option VerifyAuthenticityResponse
deriving DecidableEq

/-- The initial page state: every cell `null`/`false`. -/
def initialState : PageState :=
  ⟨none, false, none, none, none, none⟩

/-- `handleFileSelect` (identical in `part_000` and `part_001`).  The
`readAsDataURL` oracle stands for the `FileReader` completion value; the
reader callback only sets `preview` when `e.target?.result` is truthy. -/
def handleFileSelect (readAsDataURL : FileRec → String) (s : PageState)
    (file : Option FileRec) : PageState :=
  match file with
  | none => s
  | some f =>
    if ! strStartsWith f.type "image/" then
      { s with error := some "Please select an image file only" }
    else
      let dataURL := readAsDataURL f
      { s with selectedFile := some f, error := none, result := none,
               preview := if dataURL = "" then s.preview else some dataURL }

/-- `handleReset` (identical in `part_000` and `part_001`): sets
`selectedFile`, `preview`, `result` and `error` to `null` (and clears the
file input element; `croppedAreaPixels` and `uploading` are not touched). -/
def handleReset (s : PageState) : PageState :=
  { s with selectedFile := none, preview := none, result := none,
           error := none }

/-- The `setUploading(true); setError(null)` pair both variants run right
before issuing the POST: the page enters the Uploading state. -/
def enterUploading (s : PageState) : PageState :=
  { s with uploading := true, error := none }

/-- One pipeline operation started by `handleUpload`, in start order. -/
inductive UploadOp where
  | cropExtract
  | compress
  | submitPost
deriving DecidableEq

/-- A part of the multipart body: the field name and, when a `File` was
appended, the attached filename (appending a non-`Blob` value carries no
filename). -/
structure MultipartField where
  fieldName : String
  fileName : Option String
deriving DecidableEq

/-- The POST request built by `handleUpload`: the path under the configured
base URL and the multipart fields, in order. -/
structure UploadRequest where
  path : String
  fields : List MultipartField
deriving DecidableEq

/-- The outcome of the `axios.post` call: either the parsed response data,
or a thrown error carrying `err.response?.data?.message` when present. -/
inductive PostOutcome where
  | ok (data : VerifyAuthenticityResponse)
  | err (message : Option String)
deriving DecidableEq

/-- The observable effect of one `handleUpload` run: the final page state,
the ordered trace of pipeline operations started, and the request issued
(if the run reached the POST). -/
structure UploadRun where
  state : PageState
  trace : List UploadOp
  request : Option UploadRequest
deriving DecidableEq

/-- `handleUpload` of `part_000`.  It first re-encodes the preview
(`optimizeImage(preview, imageName, "string")`, oracle `optimizeO`), then
crops the optimized URL (`getCroppedImg(optimizedImage, croppedAreaPixels)`,
oracle `cropO`), then POSTs a `File` named with the original `selectedFile`
name to `/user/documents`.  On success it stores the response; on a thrown
POST it sets `error` from `err.response?.data?.message` with the generic
fallback; `finally` resets `uploading`. -/
def handleUpload_000 (s : PageState) (optimizeO : String → Option String)
    (cropO : String → Option String) (postO : PostOutcome) : UploadRun :=
  match s.selectedFile with
  | none => ⟨s, [], none⟩
  | some f =>
    match s.croppedAreaPixels, s.preview with
    | some _, some preview =>
      if preview = "" then ⟨s, [], none⟩
      else
        let imageName := f.name
        match optimizeO preview with
        | none => ⟨s, [UploadOp.compress], none⟩
        | some optimizedImage =>
          match cropO optimizedImage with
          | none => ⟨s, [UploadOp.compress, UploadOp.cropExtract], none⟩
          | some _croppedImage =>
            let s1 := enterUploading s
            let req : UploadRequest :=
              ⟨"/user/documents", [⟨"image", some imageName⟩]⟩
            match postO with
            | PostOutcome.ok data =>
              ⟨{ s1 with result := some data, uploading := false },
               [UploadOp.compress, UploadOp.cropExtract, UploadOp.submitPost],
               some req⟩
            | PostOutcome.err m =>
              ⟨{ s1 with error := some (jsOrOpt m uploadFailedMsg),
                         uploading := false },
               [UploadOp.compress, UploadOp.cropExtract, UploadOp.submitPost],
               some req⟩
    | _, _ => ⟨s, [], none⟩

/-- The filename `optimizeImage` gives the optimized `File`
(`fileName.split(".")[0] + ".webp"`). -/
def webpImageName (fileName : String) : String :=
  headBeforeDot fileName ++ ".webp"

/-- `handleUpload` of `part_001`.  It first crops the preview
(`getCroppedImg(preview, croppedAreaPixels)`, oracle `cropO`), then
re-encodes the cropped URL (`optimizeImage(croppedImage, imageName,
"file")`, which resolves either a `File` named `webpImageName imageName` —
`optimizeFileOk = true` — or `null`, which is still appended), then POSTs
to `/verify`.  A response with `is_authentic` false sets `error` from
`reasoning` with the generic fallback and stores no result; an authentic
response is stored; a thrown POST sets `error` from
`err.response?.data?.message`; `finally` resets `uploading`. -/
def handleUpload_001 (s : PageState) (cropO : String → Option String)
    (optimizeFileOk : Bool) (postO : PostOutcome) : UploadRun :=
  match s.selectedFile with
  | none => ⟨s, [], none⟩
  | some f =>
    match s.croppedAreaPixels, s.preview with
    | some _, some preview =>
      if preview = "" then ⟨s, [], none⟩
      else
        let imageName := f.name
        match cropO preview with
        | none => ⟨s, [UploadOp.cropExtract], none⟩
        | some _croppedImage =>
          let optimizedName : Option String :=
            if optimizeFileOk then some (webpImageName imageName) else none
          let s1 := enterUploading s
          let req : UploadRequest := ⟨"/verify", [⟨"image", optimizedName⟩]⟩
          match postO with
          | PostOutcome.ok data =>
            if ! data.result.is_authentic then
              ⟨{ s1 with error := some (jsOr data.result.reasoning
                                          uploadFailedMsg),
                         uploading := false },
               [UploadOp.cropExtract, UploadOp.compress, UploadOp.submitPost],
               some req⟩
            else
              ⟨{ s1 with result := some data, uploading := false },
               [UploadOp.cropExtract, UploadOp.compress, UploadOp.submitPost],
               some req⟩
          | PostOutcome.err m =>
            ⟨{ s1 with error := some (jsOrOpt m uploadFailedMsg),
                       uploading := false },
             [UploadOp.cropExtract, UploadOp.compress, UploadOp.submitPost],
             some req⟩
    | _, _ => ⟨s, [], none⟩

/-- Host-environment availability flags for `getCroppedImg`: the two
`canvas.getContext("2d")` calls and whether `toBlob` produces a blob. -/
structure CanvasEnv where
  ctx2dAvailable : Bool
  croppedCtx2dAvailable : Bool
  toBlobOk : Bool
deriving DecidableEq

/-- How one `getCroppedImg` attempt terminates: a resolved object URL, a
resolved `null`, or a rejected promise carrying an `Error` message. -/
inductive CropOutcome where
  | blobURL (url : String)
  | nullResult
  | thrown (message : String)
deriving DecidableEq

/-- Whether the outcome is a successfully resolved object URL. -/
def CropOutcome.isSuccess : CropOutcome → Bool
  | CropOutcome.blobURL _ => true
  | _ => false

/-- Whether the outcome is a rejected promise (a thrown `Error`). -/
def CropOutcome.isThrown : CropOutcome → Bool
  | CropOutcome.thrown _ => true
  | _ => false

/-- Termination behaviour of `getCroppedImg` (after the source image has
loaded), from the crop helper in the repository: a missing 2D context on
either canvas resolves `null`; a `null` blob from `toBlob` rejects with
`Error("Failed to create blob.")`; otherwise the blob's object URL
(abstracted by `objectURL`) is resolved. -/
def getCroppedImg (env : CanvasEnv) (objectURL : String) : CropOutcome :=
  if ! env.ctx2dAvailable then CropOutcome.nullResult
  else if ! env.croppedCtx2dAvailable then CropOutcome.nullResult
  else if env.toBlobOk then CropOutcome.blobURL objectURL
  else CropOutcome.thrown "Failed to create blob."

/-- `getRadianAngle` from the crop helper: degrees to radians. -/
noncomputable def getRadianAngle (degreeValue : ℝ) : ℝ :=
  degreeValue * Real.pi / 180

/-- `rotateSize` from the crop helper: the bounding box of a
`width × height` image rotated by `rotation` degrees. -/
noncomputable def rotateSize (width height rotation : ℝ) : ℝ × ℝ :=
  (|Real.cos (getRadianAngle rotation) * width| +
     |Real.sin (getRadianAngle rotation) * height|,
   |Real.sin (getRadianAngle rotation) * width| +
     |Real.cos (getRadianAngle rotation) * height|)

/-- The hardcoded scale of `optimizeImage` (`const scale = 0.9`). -/
def optimizeScale : ℚ := 0.9

/-- The hardcoded quality of `optimizeImage` (`const quality = 0.5`). -/
def optimizeQuality : ℚ := 0.5

/-- Assigning a nonnegative fractional value to `canvas.width` or
`canvas.height` truncates it to an integer (WebIDL `unsigned long`
conversion), which is the floor for nonnegative values. -/
def canvasDim (q : ℚ) : ℕ := ⌊q⌋₊

/-- The output dimensions of `optimizeImage` (`part_002`):
`newWidth = originalImage.width * scale`, then `canvas.width = newWidth`
(and likewise for the height); the encoded blob has the canvas
dimensions. -/
def optimizeImageDims (w h : ℕ) : ℕ × ℕ :=
  (canvasDim ((w : ℚ) * optimizeScale), canvasDim ((h : ℚ) * optimizeScale))

/-! Concrete fixtures used by counterexamples and witnesses. -/

/-- A typical selected image file. -/
def fileJpg : FileRec := ⟨"photo.jpg", "image/jpeg"⟩

/-- A concrete crop rectangle. -/
def cropEx : CropPixels := ⟨10, 20, 200, 100⟩

/-- A concrete OCR payload. -/
def ocrEx : OCRResult := ⟨"sample text", "ok"⟩

/-- A concrete authentic verdict. -/
def authResultTrue : AuthenticityResult :=
  ⟨true, 23 / 25, 9 / 10, "verified", "passport", "looks genuine", 1 / 10,
   ocrEx⟩

/-- A concrete inauthentic verdict with a non-empty `reasoning`. -/
def authResultFalse : AuthenticityResult :=
  ⟨false, 2 / 5, 1 / 5, "rejected", "passport", "edges look tampered",
   4 / 5, ocrEx⟩

/-- A concrete successful (authentic) response. -/
def respTrue : VerifyAuthenticityResponse := ⟨authResultTrue, ""⟩

/-- A concrete rejecting (inauthentic) response. -/
def respFalse : VerifyAuthenticityResponse := ⟨authResultFalse, ""⟩

/-- A page state in the Previewing stage: a file selected, a preview data
URL decoded, a crop region reported, no result and no error. -/
def statePreviewing : PageState :=
  ⟨none, false, some "data:image/jpeg;base64,AA", some fileJpg, some cropEx,
   none⟩

/-- A page state holding a prior successful verification result. -/
def stateWithResult : PageState :=
  { statePreviewing with result := some respTrue }

/-- An oracle under which every asynchronous image operation succeeds. -/
def okOracle : String → Option String := fun _ => some "blob:ok"

/-! Theorems settling the claims. -/

/-- C2, counterexample: `handleReset` from a Previewing state does not clear
`croppedAreaPixels` — the prior crop region is retained, so not all four
pieces of state are cleared. -/
theorem handleReset_keeps_crop_counterexample :
    (handleReset statePreviewing).croppedAreaPixels = some cropEx ∧
    (handleReset statePreviewing).croppedAreaPixels ≠ none := by
  constructor
  · rfl
  · simp [handleReset, statePreviewing]

/-- C2, amended: `handleReset` clears `selectedFile`, `preview`, `result`
and `error`, while `croppedAreaPixels` (and `uploading`) are left
unchanged. -/
theorem handleReset_clears_page (s : PageState) :
    (handleReset s).selectedFile = none ∧
    (handleReset s).preview = none ∧
    (handleReset s).result = none ∧
    (handleReset s).error = none ∧
    (handleReset s).croppedAreaPixels = s.croppedAreaPixels ∧
    (handleReset s).uploading = s.uploading := by
  simp [handleReset]

/-- C3: for positive input dimensions, `optimizeImage` with its hardcoded
scale `0.9` produces canvas (hence output) dimensions
`⌊0.9 · w⌋ × ⌊0.9 · h⌋`, which equals `(9 * w / 10, 9 * h / 10)` in natural
division. -/
theorem optimizeImage_output_dims (w h : ℕ) (hw : 0 < w) (hh : 0 < h) :
    optimizeImageDims w h =
      (⌊(0.9 : ℚ) * (w : ℚ)⌋₊, ⌊(0.9 : ℚ) * (h : ℚ)⌋₊) ∧
    optimizeImageDims w h = (9 * w / 10, 9 * h / 10) := by
  have key : ∀ n : ℕ, ⌊(n : ℚ) * optimizeScale⌋₊ = 9 * n / 10 := by
    intro n
    have e : (n : ℚ) * optimizeScale = ((9 * n : ℕ) : ℚ) / ((10 : ℕ) : ℚ) := by
      unfold optimizeScale
      push_cast
      ring
    rw [e, Nat.floor_div_eq_div]
  constructor
  · unfold optimizeImageDims canvasDim
    rw [mul_comm ((w : ℚ)) _, mul_comm ((h : ℚ)) _]
    unfold optimizeScale
    rfl
  · unfold optimizeImageDims canvasDim
    rw [key w, key h]

/-- C3, witness: at 640 × 480 the optimizer's output dimensions are
`⌊0.9 · 640⌋ × ⌊0.9 · 480⌋ = 576 × 432`. -/
theorem optimizeImage_output_dims_witness :
    0 < 640 ∧ 0 < 480 ∧
    (optimizeImageDims 640 480 =
       (⌊(0.9 : ℚ) * ((640 : ℕ) : ℚ)⌋₊, ⌊(0.9 : ℚ) * ((480 : ℕ) : ℚ)⌋₊) ∧
     optimizeImageDims 640 480 = (9 * 640 / 10, 9 * 480 / 10)) :=
  ⟨by norm_num, by norm_num,
   optimizeImage_output_dims 640 480 (by norm_num) (by norm_num)⟩

/-- C7: selecting a file whose declared content type does not start with
`"image/"` sets the inline error `"Please select an image file only"` and
leaves `selectedFile`, `preview`, `result` (and `uploading`) unchanged. -/
theorem handleFileSelect_nonimage (readAsDataURL : FileRec → String)
    (s : PageState) (f : FileRec)
    (h : strStartsWith f.type "image/" = false) :
    (handleFileSelect readAsDataURL s (some f)).error =
      some "Please select an image file only" ∧
    (handleFileSelect readAsDataURL s (some f)).selectedFile =
      s.selectedFile ∧
    (handleFileSelect readAsDataURL s (some f)).preview = s.preview ∧
    (handleFileSelect readAsDataURL s (some f)).result = s.result ∧
    (handleFileSelect readAsDataURL s (some f)).uploading = s.uploading := by
  simp [handleFileSelect, h]

/-- C7, witness: selecting a `text/plain` file from the initial state sets
the inline error and keeps the page in its Idle fields. -/
theorem handleFileSelect_nonimage_witness :
    strStartsWith (⟨"notes.txt", "text/plain"⟩ : FileRec).type "image/" =
      false ∧
    ((handleFileSelect (fun _ => "") initialState
        (some ⟨"notes.txt", "text/plain"⟩)).error =
      some "Please select an image file only" ∧
     (handleFileSelect (fun _ => "") initialState
        (some ⟨"notes.txt", "text/plain"⟩)).selectedFile =
      initialState.selectedFile ∧
     (handleFileSelect (fun _ => "") initialState
        (some ⟨"notes.txt", "text/plain"⟩)).preview = initialState.preview ∧
     (handleFileSelect (fun _ => "") initialState
        (some ⟨"notes.txt", "text/plain"⟩)).result = initialState.result ∧
     (handleFileSelect (fun _ => "") initialState
        (some ⟨"notes.txt", "text/plain"⟩)).uploading =
      initialState.uploading) := by
  refine ⟨by decide, ?_⟩
  have hcons :=
    handleFileSelect_nonimage (fun _ => "") initialState
      ⟨"notes.txt", "text/plain"⟩ (by decide)
  exact ⟨hcons.1, hcons.2.1, hcons.2.2.1, hcons.2.2.2.1, hcons.2.2.2.2⟩

/-- C9: for nonnegative source dimensions, `rotateSize` computes the
standard rotation bounding box `(|cos θ|·w + |sin θ|·h,
|sin θ|·w + |cos θ|·h)` with the angle converted from degrees to
radians. -/
theorem rotateSize_bounding_box (w h θ : ℝ) (hw : 0 ≤ w) (hh : 0 ≤ h) :
    rotateSize w h θ =
      (|Real.cos (getRadianAngle θ)| * w + |Real.sin (getRadianAngle θ)| * h,
       |Real.sin (getRadianAngle θ)| * w +
         |Real.cos (getRadianAngle θ)| * h) := by
  unfold rotateSize
  simp only [abs_mul, abs_of_nonneg hw, abs_of_nonneg hh]

/-- C9, witness: at 3 × 4 with rotation 0° the bounding box formula applies
and evaluates to exactly 3 × 4. -/
theorem rotateSize_bounding_box_witness :
    (0 : ℝ) ≤ 3 ∧ (0 : ℝ) ≤ 4 ∧
    rotateSize 3 4 0 =
      (|Real.cos (getRadianAngle 0)| * 3 + |Real.sin (getRadianAngle 0)| * 4,
       |Real.sin (getRadianAngle 0)| * 3 +
         |Real.cos (getRadianAngle 0)| * 4) ∧
    rotateSize 3 4 0 = (3, 4) := by
  refine ⟨by norm_num, by norm_num,
    rotateSize_bounding_box 3 4 0 (by norm_num) (by norm_num), ?_⟩
  rw [rotateSize_bounding_box 3 4 0 (by norm_num) (by norm_num)]
  norm_num [getRadianAngle]

/-- C1, counterexample: in `part_000` a fully successful `handleUpload` run
starts the compression before the crop extraction — its trace is
`[compress, cropExtract, submitPost]`, not the claimed
`[cropExtract, compress, submitPost]`. -/
theorem handleUpload_000_order_counterexample :
    (handleUpload_000 statePreviewing okOracle okOracle
        (PostOutcome.ok respTrue)).trace =
      [UploadOp.compress, UploadOp.cropExtract, UploadOp.submitPost] ∧
    (handleUpload_000 statePreviewing okOracle okOracle
        (PostOutcome.ok respTrue)).trace ≠
      [UploadOp.cropExtract, UploadOp.compress, UploadOp.submitPost] := by
  constructor
  · rfl
  · intro heq
    rw [show (handleUpload_000 statePreviewing okOracle okOracle
          (PostOutcome.ok respTrue)).trace =
        [UploadOp.compress, UploadOp.cropExtract, UploadOp.submitPost]
        from rfl] at heq
    simp at heq

/-- C1, amended: every `handleUpload` run of `part_001` follows the strict
crop → compress → upload order (its trace is a stage-by-stage front of
`[cropExtract, compress, submitPost]`), while every run of `part_000`
follows compress → crop → upload; in both variants all image processing
is started before the HTTP submission. -/
theorem handleUpload_pipeline_order (s : PageState)
    (optimizeO cropO cropO1 : String → Option String)
    (optimizeFileOk : Bool) (p q : PostOutcome) :
    ((handleUpload_001 s cropO1 optimizeFileOk q).trace = [] ∨
     (handleUpload_001 s cropO1 optimizeFileOk q).trace =
       [UploadOp.cropExtract] ∨
     (handleUpload_001 s cropO1 optimizeFileOk q).trace =
       [UploadOp.cropExtract, UploadOp.compress, UploadOp.submitPost]) ∧
    ((handleUpload_000 s optimizeO cropO p).trace = [] ∨
     (handleUpload_000 s optimizeO cropO p).trace = [UploadOp.compress] ∨
     (handleUpload_000 s optimizeO cropO p).trace =
       [UploadOp.compress, UploadOp.cropExtract] ∨
     (handleUpload_000 s optimizeO cropO p).trace =
       [UploadOp.compress, UploadOp.cropExtract, UploadOp.submitPost]) := by
  constructor
  · rcases hsel : s.selectedFile with _ | f
    · simp [handleUpload_001, hsel]
    rcases hcp : s.croppedAreaPixels with _ | cp <;>
      rcases hpv : s.preview with _ | pv <;>
        simp only [handleUpload_001, hsel, hcp, hpv] <;> try simp
    by_cases hpv0 : pv = "" <;> simp only [hpv0, if_true, if_false] <;>
      try simp
    rcases hc : cropO1 pv with _ | c <;> simp only [hc] <;> try simp
    rcases q with data | m
    · by_cases hauth : data.result.is_authentic <;> simp [hauth, hpv0]
    · simp [hpv0]
  · rcases hsel : s.selectedFile with _ | f
    · simp [handleUpload_000, hsel]
    rcases hcp : s.croppedAreaPixels with _ | cp <;>
      rcases hpv : s.preview with _ | pv <;>
        simp only [handleUpload_000, hsel, hcp, hpv] <;> try simp
    by_cases hpv0 : pv = "" <;> simp only [hpv0, if_true, if_false] <;>
      try simp
    rcases ho : optimizeO pv with _ | u <;> simp only [ho] <;> try simp
    rcases hc : cropO u with _ | c <;> simp only [hc] <;> try simp
    rcases p with data | m <;> simp [hpv0]

/-- C4: in `part_001`, a successful upload whose response carries
`is_authentic = false` sets the visible error to the response's
`reasoning` (or the generic fallback when `reasoning` is empty), leaves
the stored result untouched, and ends with `uploading` false. -/
theorem handleUpload_001_inauthentic (s : PageState) (f : FileRec)
    (cp : CropPixels) (pv c : String) (cropO : String → Option String)
    (optimizeFileOk : Bool) (data : VerifyAuthenticityResponse)
    (hsel : s.selectedFile = some f)
    (hcp : s.croppedAreaPixels = some cp)
    (hpv : s.preview = some pv) (hpv0 : pv ≠ "")
    (hcrop : cropO pv = some c)
    (hauth : data.result.is_authentic = false) :
    (handleUpload_001 s cropO optimizeFileOk
        (PostOutcome.ok data)).state.error =
      some (if data.result.reasoning = "" then uploadFailedMsg
            else data.result.reasoning) ∧
    (handleUpload_001 s cropO optimizeFileOk
        (PostOutcome.ok data)).state.result = s.result ∧
    (handleUpload_001 s cropO optimizeFileOk
        (PostOutcome.ok data)).state.uploading = false := by
  simp [handleUpload_001, hsel, hcp, hpv, hpv0, hcrop, hauth,
        enterUploading, jsOr]

/-- C4, witness: an inauthentic response with reasoning
`"edges look tampered"` makes that text the visible error, stores no
result, and ends the Uploading state. -/
theorem handleUpload_001_inauthentic_witness :
    statePreviewing.selectedFile = some fileJpg ∧
    statePreviewing.croppedAreaPixels = some cropEx ∧
    statePreviewing.preview = some "data:image/jpeg;base64,AA" ∧
    "data:image/jpeg;base64,AA" ≠ "" ∧
    okOracle "data:image/jpeg;base64,AA" = some "blob:ok" ∧
    respFalse.result.is_authentic = false ∧
    ((handleUpload_001 statePreviewing okOracle true
        (PostOutcome.ok respFalse)).state.error =
      some (if respFalse.result.reasoning = "" then uploadFailedMsg
            else respFalse.result.reasoning) ∧
     (handleUpload_001 statePreviewing okOracle true
        (PostOutcome.ok respFalse)).state.result =
      statePreviewing.result ∧
     (handleUpload_001 statePreviewing okOracle true
        (PostOutcome.ok respFalse)).state.uploading = false) :=
  ⟨rfl, rfl, rfl, by simp, rfl, rfl,
   handleUpload_001_inauthentic statePreviewing fileJpg cropEx
     "data:image/jpeg;base64,AA" "blob:ok" okOracle true respFalse rfl rfl
     rfl (by simp) rfl rfl⟩

/-- C5, counterexample: a fully successful `part_000` upload attaches the
image under the original selected filename (`"photo.jpg"`), whose
character list does not end with `".webp"`. -/
theorem handleUpload_000_filename_counterexample :
    (handleUpload_000 statePreviewing okOracle okOracle
        (PostOutcome.ok respTrue)).request =
      some ⟨"/user/documents", [⟨"image", some "photo.jpg"⟩]⟩ ∧
    ¬ ".webp".data <:+ "photo.jpg".data := by
  constructor
  · rfl
  · decide

/-- C5, amended: both variants send a single multipart field named
`"image"`; `part_001` attaches it under `webpImageName` of the selected
file's name — which always ends in `".webp"` — when compression resolves a
file (and with no filename when it resolves null), while `part_000`
attaches it under the selected file's original name. -/
theorem handleUpload_request_shape (s : PageState) (f : FileRec)
    (optimizeO cropO cropO1 : String → Option String)
    (optimizeFileOk : Bool) (p q : PostOutcome)
    (hsel : s.selectedFile = some f) :
    ((handleUpload_000 s optimizeO cropO p).request = none ∨
     (handleUpload_000 s optimizeO cropO p).request =
       some ⟨"/user/documents", [⟨"image", some f.name⟩]⟩) ∧
    ((handleUpload_001 s cropO1 optimizeFileOk q).request = none ∨
     (handleUpload_001 s cropO1 optimizeFileOk q).request =
       some ⟨"/verify",
             [⟨"image", if optimizeFileOk then some (webpImageName f.name)
                        else none⟩]⟩) ∧
    ".webp".data <:+ (webpImageName f.name).data := by
  refine ⟨?_, ?_, ?_⟩
  · rcases hcp : s.croppedAreaPixels with _ | cp <;>
      rcases hpv : s.preview with _ | pv <;>
        simp only [handleUpload_000, hsel, hcp, hpv] <;> try simp
    by_cases hpv0 : pv = "" <;> simp only [hpv0, if_true, if_false] <;>
      try simp
    rcases ho : optimizeO pv with _ | u <;> simp only [ho] <;> try simp
    rcases hc : cropO u with _ | c <;> simp only [hc] <;> try simp
    rcases p with data | m <;> simp [hpv0]
  · rcases hcp : s.croppedAreaPixels with _ | cp <;>
      rcases hpv : s.preview with _ | pv <;>
        simp only [handleUpload_001, hsel, hcp, hpv] <;> try simp
    by_cases hpv0 : pv = "" <;> simp only [hpv0, if_true, if_false] <;>
      try simp
    rcases hc : cropO1 pv with _ | c <;> simp only [hc] <;> try simp
    rcases q with data | m
    · by_cases hauth : data.result.is_authentic <;> simp [hauth, hpv0]
    · simp [hpv0]
  · unfold webpImageName
    rw [String.data_append]
    exact List.suffix_append _ _

/-- C5, amended witness: for a concrete successful run of each variant,
`part_000` issues the request with the original filename and `part_001`
with the `.webp` filename. -/
theorem handleUpload_request_shape_witness :
    statePreviewing.selectedFile = some fileJpg ∧
    (((handleUpload_000 statePreviewing okOracle okOracle
          (PostOutcome.ok respTrue)).request = none ∨
      (handleUpload_000 statePreviewing okOracle okOracle
          (PostOutcome.ok respTrue)).request =
        some ⟨"/user/documents", [⟨"image", some fileJpg.name⟩]⟩) ∧
     ((handleUpload_001 statePreviewing okOracle true
          (PostOutcome.ok respTrue)).request = none ∨
      (handleUpload_001 statePreviewing okOracle true
          (PostOutcome.ok respTrue)).request =
        some ⟨"/verify",
              [⟨"image", if (true : Bool) then
                           some (webpImageName fileJpg.name)
                         else none⟩]⟩) ∧
     ".webp".data <:+ (webpImageName fileJpg.name).data) :=
  ⟨rfl,
   handleUpload_request_shape statePreviewing fileJpg okOracle okOracle
     okOracle true (PostOutcome.ok respTrue) (PostOutcome.ok respTrue) rfl⟩

/-- C6, counterexample: entering the Uploading state from a page holding a
prior result clears only the error; the prior result is retained, so the
Uploading and Result pieces of state are active at once. -/
theorem enterUploading_keeps_result_counterexample :
    (enterUploading stateWithResult).result = some respTrue ∧
    (enterUploading stateWithResult).result ≠ none ∧
    (enterUploading stateWithResult).uploading = true ∧
    (enterUploading stateWithResult).error = none := by
  refine ⟨rfl, ?_, rfl, rfl⟩
  simp [enterUploading, stateWithResult, statePreviewing]

/-- C6, amended: starting a new upload (`setUploading(true);
setError(null)` in both variants) clears any prior error but retains the
prior result (and the other page fields). -/
theorem enterUploading_clears_error_only (s : PageState) :
    (enterUploading s).error = none ∧
    (enterUploading s).uploading = true ∧
    (enterUploading s).result = s.result ∧
    (enterUploading s).preview = s.preview ∧
    (enterUploading s).selectedFile = s.selectedFile ∧
    (enterUploading s).croppedAreaPixels = s.croppedAreaPixels := by
  simp [enterUploading]

/-- C8, counterexample: with the first 2D context unavailable,
`getCroppedImg` resolves `null` — it does not fail with a thrown error. -/
theorem getCroppedImg_noCtx_counterexample :
    getCroppedImg ⟨false, true, true⟩ "blob:x" = CropOutcome.nullResult ∧
    (getCroppedImg ⟨false, true, true⟩ "blob:x").isThrown = false ∧
    (getCroppedImg ⟨false, true, true⟩ "blob:x").isSuccess = false := by
  refine ⟨rfl, rfl, rfl⟩

/-- C8, amended: whenever a 2D context or the encoder is unavailable the
attempt never resolves a URL; a missing context (either canvas) resolves
`null`, while an available context with a failing `toBlob` rejects with
`Error("Failed to create blob.")`. -/
theorem getCroppedImg_failure_modes (env : CanvasEnv) (u : String)
    (h : env.ctx2dAvailable = false ∨ env.croppedCtx2dAvailable = false ∨
         env.toBlobOk = false) :
    (getCroppedImg env u).isSuccess = false ∧
    (env.ctx2dAvailable = false ∨ env.croppedCtx2dAvailable = false →
      getCroppedImg env u = CropOutcome.nullResult) ∧
    (env.ctx2dAvailable = true → env.croppedCtx2dAvailable = true →
      env.toBlobOk = false →
      getCroppedImg env u = CropOutcome.thrown "Failed to create blob.") := by
  rcases env with ⟨c1, c2, tb⟩
  cases c1 <;> cases c2 <;> cases tb <;>
    simp_all [getCroppedImg, CropOutcome.isSuccess]

/-- C8, amended witness: with the first context unavailable the attempt
resolves `null` and yields no URL. -/
theorem getCroppedImg_failure_modes_witness :
    ((false : Bool) = false ∨ (true : Bool) = false ∨
     (true : Bool) = false) ∧
    ((getCroppedImg ⟨false, true, true⟩ "blob:y").isSuccess = false ∧
     ((⟨false, true, true⟩ : CanvasEnv).ctx2dAvailable = false ∨
      (⟨false, true, true⟩ : CanvasEnv).croppedCtx2dAvailable = false →
       getCroppedImg ⟨false, true, true⟩ "blob:y" =
         CropOutcome.nullResult) ∧
     ((⟨false, true, true⟩ : CanvasEnv).ctx2dAvailable = true →
      (⟨false, true, true⟩ : CanvasEnv).croppedCtx2dAvailable = true →
      (⟨false, true, true⟩ : CanvasEnv).toBlobOk = false →
       getCroppedImg ⟨false, true, true⟩ "blob:y" =
         CropOutcome.thrown "Failed to create blob.")) :=
  ⟨Or.inl rfl,
   getCroppedImg_failure_modes ⟨false, true, true⟩ "blob:y" (Or.inl rfl)⟩

/-- C10: in both variants, when the POST throws, the stored result is left
unchanged, `uploading` is reset to false, and the error is set from
`err.response?.data?.message` with the generic fallback when that field is
missing or empty. -/
theorem handleUpload_post_error_frame (s : PageState) (f : FileRec)
    (cp : CropPixels) (pv u c c1 : String)
    (optimizeO cropO cropO1 : String → Option String)
    (optimizeFileOk : Bool) (m : Option String)
    (hsel : s.selectedFile = some f)
    (hcp : s.croppedAreaPixels = some cp)
    (hpv : s.preview = some pv) (hpv0 : pv ≠ "")
    (ho : optimizeO pv = some u) (hc : cropO u = some c)
    (hc1 : cropO1 pv = some c1) :
    ((handleUpload_000 s optimizeO cropO (PostOutcome.err m)).state.result =
       s.result ∧
     (handleUpload_000 s optimizeO cropO
        (PostOutcome.err m)).state.uploading = false ∧
     (handleUpload_000 s optimizeO cropO (PostOutcome.err m)).state.error =
       some (jsOrOpt m uploadFailedMsg)) ∧
    ((handleUpload_001 s cropO1 optimizeFileOk
        (PostOutcome.err m)).state.result = s.result ∧
     (handleUpload_001 s cropO1 optimizeFileOk
        (PostOutcome.err m)).state.uploading = false ∧
     (handleUpload_001 s cropO1 optimizeFileOk
        (PostOutcome.err m)).state.error =
       some (jsOrOpt m uploadFailedMsg)) := by
  constructor
  · simp [handleUpload_000, hsel, hcp, hpv, hpv0, ho, hc, enterUploading]
  · simp [handleUpload_001, hsel, hcp, hpv, hpv0, hc1, enterUploading]

/-- C10, witness: a thrown POST carrying the message
`"Server rejected the image"` ends both variants' runs with that message,
an unchanged stored result, and `uploading` false. -/
theorem handleUpload_post_error_frame_witness :
    statePreviewing.selectedFile = some fileJpg ∧
    statePreviewing.croppedAreaPixels = some cropEx ∧
    statePreviewing.preview = some "data:image/jpeg;base64,AA" ∧
    "data:image/jpeg;base64,AA" ≠ "" ∧
    (((handleUpload_000 statePreviewing okOracle okOracle
         (PostOutcome.err (some "Server rejected the image"))).state.result =
        statePreviewing.result ∧
      (handleUpload_000 statePreviewing okOracle okOracle
         (PostOutcome.err
           (some "Server rejected the image"))).state.uploading = false ∧
      (handleUpload_000 statePreviewing okOracle okOracle
         (PostOutcome.err (some "Server rejected the image"))).state.error =
        some (jsOrOpt (some "Server rejected the image") uploadFailedMsg)) ∧
     ((handleUpload_001 statePreviewing okOracle true
         (PostOutcome.err (some "Server rejected the image"))).state.result =
        statePreviewing.result ∧
      (handleUpload_001 statePreviewing okOracle true
         (PostOutcome.err
           (some "Server rejected the image"))).state.uploading = false ∧
      (handleUpload_001 statePreviewing okOracle true
         (PostOutcome.err (some "Server rejected the image"))).state.error =
        some (jsOrOpt (some "Server rejected the image") uploadFailedMsg))) :=
  ⟨rfl, rfl, rfl, by simp,
   handleUpload_post_error_frame statePreviewing fileJpg cropEx
     "data:image/jpeg;base64,AA" "blob:ok" "blob:ok" "blob:ok" okOracle
     okOracle okOracle true (some "Server rejected the image") rfl rfl rfl
     (by simp) rfl rfl rfl⟩
